import Mathlib

/-!
Shallow embedding of the configuration-synthesis and deployment logic of
`nginx-hysteria2-modified.py`.

Conventions of the embedding:
* Python dicts that are serialized to JSON become Lean structures whose
  fields mirror the JSON keys.
* Filesystem queries (`os.path.exists`) are injected as a predicate
  `String → Bool` so that the pure decision logic can be stated and proved.
* The ambient state of Python's global `random` module at the moment
  `random.choice(masquerade_sites)` is called is modelled as an explicitly
  passed function `randChoice : List String → String`; a fixed state makes
  the call deterministic.
* Python truthiness of an `Optional[str]` argument (`if obfs_password:`,
  `custom_web_dir and ...`) is modelled by `pyTruthy`.
-/

namespace Hysteria2

/-- Truthiness of an optional Python string: `None` and `""` are falsy. -/
def pyTruthy : Option String → Bool
  | none => false
  | some s => s ≠ ""

/-- Masquerade section of the Hysteria2 config: either `type: file` with a
directory, or `type: proxy` with a URL and a `rewriteHost` flag. -/
inductive Masquerade where
  | file (dir : String)
  | proxy (url : String) (rewriteHost : Bool)
  deriving DecidableEq, Repr

/-- Contents of the `_port_hopping` record written by `create_config`. -/
structure PortHopping where
  enabled : Bool
  range_start : Nat
  range_end : Nat
  listen_port : Nat
  deriving DecidableEq, Repr

/-- The fixed QUIC tuning block added for the three optimized ports. -/
structure QuicParams where
  initStreamReceiveWindow : Nat
  maxStreamReceiveWindow : Nat
  initConnReceiveWindow : Nat
  maxConnReceiveWindow : Nat
  maxIdleTimeout : String
  maxIncomingStreams : Nat
  disablePathMTUDiscovery : Bool
  deriving DecidableEq, Repr

/-- The Hysteria2 server configuration document assembled by `create_config`
(the Python dict that is dumped to `config.json`), with nested dicts
flattened into named fields. -/
structure HyConfig where
  listen : String
  tls_cert : String
  tls_key : String
  auth_type : String
  auth_password : String
  bandwidth_up : String
  bandwidth_down : String
  ignoreClientBandwidth : Bool
  log_level : String
  log_output : String
  log_timestamp : Bool
  resolver_type : String
  resolver_tcp_addr : String
  resolver_tcp_timeout : String
  resolver_udp_addr : String
  resolver_udp_timeout : String
  obfs_salamander_password : Option String
  masquerade : Masquerade
  port_hopping : Option PortHopping
  quic : Option QuicParams
  deriving DecidableEq, Repr

/-- The fixed candidate list `masquerade_sites` from `create_config`. -/
def masquerade_sites : List String :=
  ["https://www.microsoft.com",
   "https://www.apple.com",
   "https://www.amazon.com",
   "https://www.github.com",
   "https://www.stackoverflow.com"]

/-- Embedding of `create_config`.  `exists_dir` injects `os.path.exists`;
`randChoice` injects the state of the global `random` module at the point of
the `random.choice(masquerade_sites)` call.  The `domain` parameter is
accepted and unused, exactly as in the source. -/
def create_config (base_dir : String) (port : Nat) (password : String)
    (cert_path key_path : String) (_domain : String)
    (enable_web_masquerade : Bool) (custom_web_dir : Option String)
    (enable_port_hopping : Bool) (obfs_password : Option String)
    (enable_http3_masquerade : Bool)
    (exists_dir : String → Bool) (randChoice : List String → String) :
    HyConfig :=
  let webDirOk : Bool :=
    enable_web_masquerade &&
      (match custom_web_dir with
       | none => false
       | some d => (d ≠ "" : Bool) && exists_dir d)
  let ph : Option PortHopping :=
    if enable_port_hopping then
      let port_start := max 1024 (port - 25)
      let port_end := min 65535 (port + 25)
      let port_start := if port < 1049 then 1024 else port_start
      let port_end := if port < 1049 then 1074 else port_end
      some { enabled := true, range_start := port_start,
             range_end := port_end, listen_port := port }
    else none
  let masq : Masquerade :=
    if enable_http3_masquerade then
      if webDirOk then
        .file (custom_web_dir.getD "")
      else
        .proxy "https://www.google.com" true
    else if webDirOk then
      .file (custom_web_dir.getD "")
    else if port = 80 ∨ port = 443 ∨ port = 8080 ∨ port = 8443 then
      .proxy "https://www.microsoft.com" true
    else
      .proxy (randChoice masquerade_sites) true
  let quic : Option QuicParams :=
    if port = 54116 ∨ port = 17205 ∨ port = 39670 then
      some { initStreamReceiveWindow := 8388608,
             maxStreamReceiveWindow := 8388608,
             initConnReceiveWindow := 20971520,
             maxConnReceiveWindow := 20971520,
             maxIdleTimeout := "30s",
             maxIncomingStreams := 1024,
             disablePathMTUDiscovery := false }
    else none
  { listen := ":" ++ toString port,
    tls_cert := cert_path,
    tls_key := key_path,
    auth_type := "password",
    auth_password := password,
    bandwidth_up := "1000 mbps",
    bandwidth_down := "1000 mbps",
    ignoreClientBandwidth := false,
    log_level := "warn",
    log_output := base_dir ++ "/logs/hysteria.log",
    log_timestamp := true,
    resolver_type := "udp",
    resolver_tcp_addr := "8.8.8.8:53",
    resolver_tcp_timeout := "4s",
    resolver_udp_addr := "8.8.8.8:53",
    resolver_udp_timeout := "4s",
    obfs_salamander_password :=
      (if pyTruthy obfs_password then obfs_password else none),
    masquerade := masq,
    port_hopping := ph,
    quic := quic }

/-- The spec's ServerProfile: the per-deployment inputs that `main` collects
and feeds to `create_config`. -/
structure ServerProfile where
  address : String
  port : Nat
  password : String
  certPath : String
  keyPath : String
  webRoot : Option String
  portHopping : Bool
  obfsPassword : Option String
  http3Masquerade : Bool
  deriving DecidableEq, Repr

/-- ConfigSynthesizer: `main` calls `create_config(base_dir, port, password,
cert_path, key_path, server_address, args.web_masquerade, web_dir,
args.port_hopping, args.obfs_password, args.http3_masquerade)`, where
`args.web_masquerade` is an `argparse` flag declared with `default=True`
(so it is always `True`). -/
def synthesize (base_dir : String) (exists_dir : String → Bool)
    (randChoice : List String → String) (p : ServerProfile) : HyConfig :=
  create_config base_dir p.port p.password p.certPath p.keyPath p.address
    true p.webRoot p.portHopping p.obfsPassword p.http3Masquerade
    exists_dir randChoice

/-! FrontProxyRenderer: the nginx template from `setup_nginx_smart_proxy`.
The f-string template is line structured; each line is either pure literal
text or literal text with exactly one interpolated value.  `NLine` records
that structure and `NLine.text` reproduces the exact source text of the
line; the full document is the newline join of the line texts. -/

/-- One line of the nginx configuration template: either a literal line, or
a line `pre ++ value ++ post` with one interpolated value. -/
inductive NLine where
  | lit (s : String)
  | ins (pre : String) (val : String) (post : String)
  deriving DecidableEq, Repr

/-- Source text of a template line. -/
def NLine.text : NLine → String
  | .lit s => s
  | .ins a v b => a ++ v ++ b

/-- The literal part at the start of a template line (for a literal line,
the whole line). -/
def NLine.startText : NLine → String
  | .lit s => s
  | .ins a _ _ => a

/-- Lines of the `nginx_conf` f-string of `setup_nginx_smart_proxy`, in
order.  `abspath` injects `os.path.abspath`.  The `hysteria_port` argument
of the surrounding function is in scope for the template but, as in the
source, not interpolated anywhere. -/
def nginx_conf_lines (nginx_user cert_path key_path web_dir : String)
    (abspath : String → String) (_hysteria_port : Nat) : List NLine :=
  [ .ins "user " nginx_user ";",
    .lit "worker_processes auto;",
    .lit "error_log /var/log/nginx/error.log notice;",
    .lit "pid /run/nginx.pid;",
    .lit "",
    .lit "events \x7b",
    .lit "    worker_connections 1024;",
    .lit "\x7d",
    .lit "",
    .lit "http \x7b",
    .lit "    include /etc/nginx/mime.types;",
    .lit "    default_type application/octet-stream;",
    .lit "    sendfile on;",
    .lit "    keepalive_timeout 65;",
    .lit "    server_tokens off;",
    .lit "    ",
    .lit "    server \x7b",
    .lit "        listen 80;",
    .lit "        listen 54116 ssl http2;",
    .lit "        server_name _;",
    .lit "        ",
    .ins "        ssl_certificate " (abspath cert_path) ";",
    .ins "        ssl_certificate_key " (abspath key_path) ";",
    .lit "        ssl_protocols TLSv1.2 TLSv1.3;",
    .lit "        ssl_ciphers ECDHE-RSA-AES128-GCM-SHA256:ECDHE-RSA-AES256-GCM-SHA384;",
    .lit "        ",
    .ins "        root " web_dir ";",
    .lit "        index index.html index.htm;",
    .lit "        ",
    .lit "        # 正常网站访问",
    .lit "        location / \x7b",
    .lit "            try_files $uri $uri/ /index.html;",
    .lit "        \x7d",
    .lit "        ",
    .lit "        add_header X-Frame-Options DENY always;",
    .lit "        add_header X-Content-Type-Options nosniff always;",
    .lit "    \x7d",
    .lit "\x7d" ]

/-- The rendered nginx configuration document (the value of the Python
variable `nginx_conf`). -/
def nginx_conf (nginx_user cert_path key_path web_dir : String)
    (abspath : String → String) (hysteria_port : Nat) : String :=
  String.intercalate "\n"
    ((nginx_conf_lines nginx_user cert_path key_path web_dir abspath
        hysteria_port).map NLine.text)

/-- A template line is an `add_header` directive when its leading literal
text, after the indentation, starts with the directive name. -/
def isAddHeaderLine (l : NLine) : Bool :=
  "add_header".data.isPrefixOf (l.startText.data.dropWhile (fun c => c = ' '))

/-! Certificate provider: `generate_self_signed_cert`.  The openssl
invocation is external; what the function decides is the pair of output
paths and the `-subj` argument, which we record. -/

/-- Code points of the characters Python's `str.strip()` removes (the
`Py_UNICODE_ISSPACE` set, i.e. exactly the characters on which
`str.isspace()` holds): the ASCII whitespace `\t \n \v \f \r`, space, the
file/group/record/unit separators `\x1c`-`\x1f`, next line `\x85`,
no-break space `\xa0`, and the Unicode space characters. -/
def pyWhitespace : List Nat :=
  [0x9, 0xA, 0xB, 0xC, 0xD, 0x1C, 0x1D, 0x1E, 0x1F, 0x20, 0x85, 0xA0,
   0x1680, 0x2000, 0x2001, 0x2002, 0x2003, 0x2004, 0x2005, 0x2006,
   0x2007, 0x2008, 0x2009, 0x200A, 0x2028, 0x2029, 0x202F, 0x205F,
   0x3000]

/-- Whitespace predicate of Python's `str.strip()`. -/
def pyIsSpace (c : Char) : Bool :=
  pyWhitespace.contains c.toNat

/-- Python `str.strip()`: remove leading and trailing whitespace. -/
def pyStrip (s : String) : String :=
  String.mk (((s.data.dropWhile pyIsSpace).reverse.dropWhile pyIsSpace).reverse)

/-- Result of `generate_self_signed_cert`: the certificate and key paths
and the `-subj` argument handed to openssl. -/
structure CertGenResult where
  cert_path : String
  key_path : String
  subj : String
  deriving DecidableEq, Repr

/-- Embedding of `generate_self_signed_cert`: derives the output paths from
`base_dir`, replaces an empty or whitespace-only domain by `"localhost"`,
and requests common name `/CN=<domain>`. -/
def generate_self_signed_cert (base_dir domain : String) : CertGenResult :=
  let cert_path := base_dir ++ "/cert/server.crt"
  let key_path := base_dir ++ "/cert/server.key"
  let domain := if domain = "" ∨ pyStrip domain = "" then "localhost" else domain
  { cert_path := cert_path, key_path := key_path, subj := "/CN=" ++ domain }

/-! DeploymentOrchestrator: the backup / write / validate / rollback /
restart sequence of `setup_nginx_smart_proxy`.  Filesystem and process
effects are made explicit: `exists_file` injects `os.path.exists`,
`initial_live` is the byte content of `/etc/nginx/nginx.conf` before the
run, `validate` is `sudo nginx -t` run against the live document, and
`restart_ok` is the outcome of `sudo systemctl restart nginx`. -/

/-- Observable outcome of a `setup_nginx_smart_proxy` run: the returned
pair `(ok, ret)`, the final bytes of the live configuration file, the bytes
of the backup file, and whether a service restart was attempted. -/
structure NginxRunResult where
  ok : Bool
  ret : Option Nat
  live : String
  backup : String
  restart_attempted : Bool
  deriving DecidableEq, Repr

/-- The certificate/key pair actually used: each of the two existence
checks replaces the pair by freshly generated paths when the checked file
is missing. -/
def resolved_cert_pair (exists_file : String → Bool)
    (base_dir domain cert_path key_path : String) : String × String :=
  let g := generate_self_signed_cert base_dir domain
  let ck := if exists_file cert_path then (cert_path, key_path)
            else (g.cert_path, g.key_path)
  if exists_file ck.2 then ck else (g.cert_path, g.key_path)

/-- The document written to `/etc/nginx/nginx.conf` by the run. -/
def setup_written_conf (exists_file : String → Bool)
    (base_dir domain nginx_user web_dir cert_path key_path : String)
    (abspath : String → String) (hysteria_port : Nat) : String :=
  let ck := resolved_cert_pair exists_file base_dir domain cert_path key_path
  nginx_conf nginx_user ck.1 ck.2 web_dir abspath hysteria_port

/-- Embedding of `setup_nginx_smart_proxy`: back up the live document, write
the freshly rendered one, run the syntax validator; on validator failure
copy the backup back and return failure without touching the service; on
validator success restart the service, reporting failure if the restart
fails while leaving the validated file in place. -/
def setup_nginx_smart_proxy (exists_file : String → Bool)
    (base_dir domain nginx_user web_dir cert_path key_path : String)
    (abspath : String → String) (hysteria_port : Nat)
    (initial_live : String) (validate : String → Bool)
    (restart_ok : Bool) : NginxRunResult :=
  let conf := setup_written_conf exists_file base_dir domain nginx_user
    web_dir cert_path key_path abspath hysteria_port
  let backup := initial_live
  if validate conf then
    if restart_ok then
      { ok := true, ret := some hysteria_port, live := conf,
        backup := backup, restart_attempted := true }
    else
      { ok := false, ret := none, live := conf,
        backup := backup, restart_attempted := true }
  else
    { ok := false, ret := none, live := backup,
      backup := backup, restart_attempted := false }

/-! ClientDescriptorBuilder: the `config_link` construction in `main`. -/

/-- Uppercase hexadecimal digit. -/
def hexDigit (n : Nat) : Char :=
  if n < 10 then Char.ofNat (48 + n) else Char.ofNat (55 + n)

/-- Percent-encoding of one byte, `%XX` with uppercase hex as produced by
`urllib.parse.quote`. -/
def percentByte (b : Nat) : String :=
  String.mk ['%', hexDigit (b / 16), hexDigit (b % 16)]

/-- UTF-8 byte sequence of a character. -/
def utf8Bytes (c : Char) : List Nat :=
  let n := c.toNat
  if n < 128 then [n]
  else if n < 2048 then [192 + n / 64, 128 + n % 64]
  else if n < 65536 then
    [224 + n / 4096, 128 + (n / 64) % 64, 128 + n % 64]
  else
    [240 + n / 262144, 128 + (n / 4096) % 64, 128 + (n / 64) % 64,
     128 + n % 64]

/-- Characters that `urllib.parse.quote` leaves unencoded with its default
`safe='/'`: ASCII letters, digits, `_.-~` and `/`. -/
def quoteSafe (c : Char) : Bool :=
  (65 ≤ c.toNat && c.toNat ≤ 90) || (97 ≤ c.toNat && c.toNat ≤ 122) ||
  (48 ≤ c.toNat && c.toNat ≤ 57) ||
  c = '_' || c = '.' || c = '-' || c = '~' || c = '/'

/-- Embedding of `urllib.parse.quote` with default arguments: safe
characters pass through, every other character's UTF-8 bytes are
percent-encoded. -/
def urlquote (s : String) : String :=
  String.join (s.data.map (fun c =>
    if quoteSafe c then String.mk [c]
    else String.join ((utf8Bytes c).map percentByte)))

/-- Python `sep.join(list)`. -/
def pyJoin (sep : String) : List String → String
  | [] => ""
  | [s] => s
  | s :: rest => s ++ sep ++ pyJoin sep rest

/-- Embedding of the client connection-link construction in `main`
(`config_link = f"hysteria2://{quote(password)}@{server_address}:{port}?..."`):
the insecure parameter is `"0"` exactly when a real certificate was used,
the `sni` parameter carries the server address verbatim, and the two obfs
parameters are appended exactly when `obfs_password` is truthy. -/
def config_link (password server_address : String) (port : Nat)
    (obfs_password : Option String) (use_real_cert : Bool) : String :=
  let insecure_param := if use_real_cert then "0" else "1"
  let params := ["insecure=" ++ insecure_param, "sni=" ++ server_address]
  let params := params ++
    (if pyTruthy obfs_password then
      ["obfs=salamander",
       "obfs-password=" ++ urlquote (obfs_password.getD "")]
     else [])
  "hysteria2://" ++ urlquote password ++ "@" ++ server_address ++ ":" ++
    toString port ++ "?" ++ pyJoin "&" params

/-! Theorems about the ConfigSynthesizer. -/

/-- C3: whenever `http3Masquerade` is true and a `webRoot` is supplied
(a non-empty path, since Python treats `""` as unsupplied) and exists on
disk, the synthesized masquerade is `FileServe{webRoot}`, for every value
of the remaining profile fields, of the port, and of the injected
filesystem and randomness dependencies. -/
theorem C3_http3_masquerade_precedence
    (base : String) (ex : String → Bool) (rc : List String → String)
    (p : ServerProfile) (d : String)
    (h1 : p.http3Masquerade = true) (h2 : p.webRoot = some d)
    (h3 : d ≠ "") (h4 : ex d = true) :
    (synthesize base ex rc p).masquerade = .file d := by
  simp [synthesize, create_config, h1, h2, h3, h4]

/-- Closed instance of `C3_http3_masquerade_precedence` at a concrete
profile exercising all its hypotheses. -/
theorem C3_http3_masquerade_precedence_witness :
    ({ address := "203.0.113.5", port := 9999, password := "pw",
       certPath := "/c", keyPath := "/k", webRoot := some "/srv/www",
       portHopping := true, obfsPassword := some "ob",
       http3Masquerade := true } : ServerProfile).http3Masquerade = true ∧
    (synthesize "/home/u/.hysteria2" (fun _ => true) (fun _ => "r")
      { address := "203.0.113.5", port := 9999, password := "pw",
        certPath := "/c", keyPath := "/k", webRoot := some "/srv/www",
        portHopping := true, obfsPassword := some "ob",
        http3Masquerade := true }).masquerade = .file "/srv/www" :=
  ⟨rfl, C3_http3_masquerade_precedence "/home/u/.hysteria2" (fun _ => true)
    (fun _ => "r") _ "/srv/www" rfl rfl (by decide) rfl⟩

/-- C4 counterexample: the claim fails as stated.  At port 65535 (with port
hopping on) the derived range is `[65510, 65535]`, whose span is 25, not at
least 50, although `65535 ≥ 1049`; and at port 80 the overridden range is
`[1024, 1074]`, which does not contain 80. -/
theorem C4_counterexample :
    (synthesize "/h" (fun _ => false) (fun _ => "s")
      { address := "a", port := 65535, password := "p", certPath := "c",
        keyPath := "k", webRoot := none, portHopping := true,
        obfsPassword := none, http3Masquerade := false }).port_hopping =
      some { enabled := true, range_start := 65510, range_end := 65535,
             listen_port := 65535 } ∧
    ¬ (50 ≤ 65535 - 65510) ∧
    (synthesize "/h" (fun _ => false) (fun _ => "s")
      { address := "a", port := 80, password := "p", certPath := "c",
        keyPath := "k", webRoot := none, portHopping := true,
        obfsPassword := none, http3Masquerade := false }).port_hopping =
      some { enabled := true, range_start := 1024, range_end := 1074,
             listen_port := 80 } ∧
    ¬ (1024 ≤ 80) := by
  refine ⟨rfl, by decide, rfl, by decide⟩

/-- C4 amended: with port hopping enabled the config always records
`listenPort = port`; the range contains the port whenever the port lies in
`[1024, 65535]`; and the span is at least 50 whenever
`1049 ≤ port ≤ 65510`. -/
theorem C4_port_hopping_invariant
    (base : String) (ex : String → Bool) (rc : List String → String)
    (p : ServerProfile) (h : p.portHopping = true) :
    ∃ hp, (synthesize base ex rc p).port_hopping = some hp ∧
      hp.listen_port = p.port ∧
      (1024 ≤ p.port → p.port ≤ 65535 →
        hp.range_start ≤ p.port ∧ p.port ≤ hp.range_end) ∧
      (1049 ≤ p.port → p.port ≤ 65510 →
        50 ≤ hp.range_end - hp.range_start) := by
  simp only [synthesize, create_config, h, if_true]
  refine ⟨_, rfl, rfl, ?_, ?_⟩
  · intro hge hle
    dsimp only
    constructor <;> split <;> omega
  · intro h1 h2
    dsimp only
    split <;> omega

/-- Closed instance of `C4_port_hopping_invariant` at port 54116. -/
theorem C4_port_hopping_invariant_witness :
    ({ address := "a", port := 54116, password := "p", certPath := "c",
       keyPath := "k", webRoot := none, portHopping := true,
       obfsPassword := none,
       http3Masquerade := false } : ServerProfile).portHopping = true ∧
    ∃ hp, (synthesize "/h" (fun _ => false) (fun _ => "s")
      { address := "a", port := 54116, password := "p", certPath := "c",
        keyPath := "k", webRoot := none, portHopping := true,
        obfsPassword := none,
        http3Masquerade := false }).port_hopping = some hp ∧
      hp.listen_port = 54116 ∧
      (1024 ≤ 54116 → 54116 ≤ 65535 →
        hp.range_start ≤ 54116 ∧ 54116 ≤ hp.range_end) ∧
      (1049 ≤ 54116 → 54116 ≤ 65510 →
        50 ≤ hp.range_end - hp.range_start) :=
  ⟨rfl, C4_port_hopping_invariant "/h" (fun _ => false) (fun _ => "s") _ rfl⟩

/-- C5: with port hopping enabled, the derived range is
`[max 1024 (port-25), min 65535 (port+25)]`, except that below 1049 it is
the fixed window `[1024, 1074]`; the record is flagged enabled and carries
the listen port. -/
theorem C5_port_hopping_range
    (base : String) (ex : String → Bool) (rc : List String → String)
    (p : ServerProfile) (h : p.portHopping = true) :
    ∃ hp, (synthesize base ex rc p).port_hopping = some hp ∧
      hp.enabled = true ∧ hp.listen_port = p.port ∧
      (p.port < 1049 → hp.range_start = 1024 ∧ hp.range_end = 1074) ∧
      (1049 ≤ p.port → hp.range_start = max 1024 (p.port - 25) ∧
        hp.range_end = min 65535 (p.port + 25)) := by
  simp only [synthesize, create_config, h, if_true]
  refine ⟨_, rfl, rfl, rfl, ?_, ?_⟩ <;>
    intro h1 <;> simp [h1, Nat.not_lt.mpr]

/-- Closed instance of `C5_port_hopping_range` at port 1030, exhibiting the
low-end override `[1024, 1074]` required by the claim. -/
theorem C5_port_hopping_range_witness :
    ({ address := "a", port := 1030, password := "p", certPath := "c",
       keyPath := "k", webRoot := none, portHopping := true,
       obfsPassword := none,
       http3Masquerade := false } : ServerProfile).portHopping = true ∧
    ∃ hp, (synthesize "/h" (fun _ => false) (fun _ => "s")
      { address := "a", port := 1030, password := "p", certPath := "c",
        keyPath := "k", webRoot := none, portHopping := true,
        obfsPassword := none,
        http3Masquerade := false }).port_hopping = some hp ∧
      hp.enabled = true ∧ hp.listen_port = 1030 ∧
      (1030 < 1049 → hp.range_start = 1024 ∧ hp.range_end = 1074) ∧
      (1049 ≤ 1030 → hp.range_start = max 1024 (1030 - 25) ∧
        hp.range_end = min 65535 (1030 + 25)) :=
  ⟨rfl, C5_port_hopping_range "/h" (fun _ => false) (fun _ => "s") _ rfl⟩

/-- C6: synthesis is deterministic.  All nondeterminism of the source (the
state of the global `random` module at the `random.choice` call, and the
filesystem) is passed explicitly, so two runs on the same profile with the
same injected random state (and the same filesystem) produce equal — hence
byte-identical once serialized — configs. -/
theorem C6_synthesize_deterministic
    (base : String) (ex : String → Bool)
    (rc₁ rc₂ : List String → String) (p₁ p₂ : ServerProfile)
    (hp : p₁ = p₂) (hr : rc₁ = rc₂) :
    synthesize base ex rc₁ p₁ = synthesize base ex rc₂ p₂ := by
  rw [hp, hr]

/-- Closed instance of `C6_synthesize_deterministic` on a profile that
takes the random fallback masquerade branch. -/
theorem C6_synthesize_deterministic_witness :
    synthesize "/h" (fun _ => false) (fun l => l.headD "")
      { address := "a", port := 9999, password := "p", certPath := "c",
        keyPath := "k", webRoot := none, portHopping := false,
        obfsPassword := none, http3Masquerade := false } =
    synthesize "/h" (fun _ => false) (fun l => l.headD "")
      { address := "a", port := 9999, password := "p", certPath := "c",
        keyPath := "k", webRoot := none, portHopping := false,
        obfsPassword := none, http3Masquerade := false } :=
  C6_synthesize_deterministic "/h" (fun _ => false) _ _ _ _ rfl rfl

/-- C8 counterexample: the bandwidth caps are the fixed constants
`"1000 mbps"`, not values copied from the profile — the concrete profile
below contains the string `"1000 mbps"` nowhere, yet both caps equal it. -/
theorem C8_counterexample :
    (synthesize "/base" (fun _ => false) (fun _ => "r")
      { address := "203.0.113.5", port := 54116, password := "pw",
        certPath := "/cert.crt", keyPath := "/cert.key", webRoot := none,
        portHopping := false, obfsPassword := none,
        http3Masquerade := false }).bandwidth_up = "1000 mbps" ∧
    (synthesize "/base" (fun _ => false) (fun _ => "r")
      { address := "203.0.113.5", port := 54116, password := "pw",
        certPath := "/cert.crt", keyPath := "/cert.key", webRoot := none,
        portHopping := false, obfsPassword := none,
        http3Masquerade := false }).bandwidth_down = "1000 mbps" ∧
    ("203.0.113.5" : String) ≠ "1000 mbps" ∧
    ("pw" : String) ≠ "1000 mbps" ∧
    ("/cert.crt" : String) ≠ "1000 mbps" ∧
    ("/cert.key" : String) ≠ "1000 mbps" := by
  refine ⟨rfl, rfl, by decide, by decide, by decide, by decide⟩

/-- C8 amended: the auth password and the TLS certificate/key references
are copied through unchanged from the profile, the log sink path is derived
from the base directory, and the bandwidth caps are the fixed constants
`"1000 mbps"` up and down (they do not come from the profile). -/
theorem C8_passthrough_fields
    (base : String) (ex : String → Bool) (rc : List String → String)
    (p : ServerProfile) :
    (synthesize base ex rc p).auth_password = p.password ∧
    (synthesize base ex rc p).tls_cert = p.certPath ∧
    (synthesize base ex rc p).tls_key = p.keyPath ∧
    (synthesize base ex rc p).bandwidth_up = "1000 mbps" ∧
    (synthesize base ex rc p).bandwidth_down = "1000 mbps" ∧
    (synthesize base ex rc p).log_output = base ++ "/logs/hysteria.log" :=
  ⟨rfl, rfl, rfl, rfl, rfl, rfl⟩

/-! Theorems about the DeploymentOrchestrator. -/

/-- C1: when the syntax validator rejects the freshly written front-proxy
document, the run restores the live configuration file to the exact bytes
backed up before the write, reports failure, and never attempts a service
restart. -/
theorem C1_validation_failure_rolls_back
    (ef : String → Bool)
    (base domain user web cert key : String) (ab : String → String)
    (port : Nat) (initial_live : String) (validate : String → Bool)
    (restart_ok : Bool)
    (h : validate (setup_written_conf ef base domain user web cert key ab
          port) = false) :
    (setup_nginx_smart_proxy ef base domain user web cert key ab port
      initial_live validate restart_ok).live = initial_live ∧
    (setup_nginx_smart_proxy ef base domain user web cert key ab port
      initial_live validate restart_ok).ok = false ∧
    (setup_nginx_smart_proxy ef base domain user web cert key ab port
      initial_live validate restart_ok).restart_attempted = false := by
  simp [setup_nginx_smart_proxy, h]

/-- Closed instance of `C1_validation_failure_rolls_back` with an
always-rejecting validator. -/
theorem C1_validation_failure_rolls_back_witness :
    (fun _ : String => false) (setup_written_conf (fun _ => true) "/h" "d"
      "nginx" "/w" "/c" "/k" id 54116) = false ∧
    ((setup_nginx_smart_proxy (fun _ => true) "/h" "d" "nginx" "/w" "/c"
        "/k" id 54116 "OLD CONF" (fun _ => false) true).live = "OLD CONF" ∧
     (setup_nginx_smart_proxy (fun _ => true) "/h" "d" "nginx" "/w" "/c"
        "/k" id 54116 "OLD CONF" (fun _ => false) true).ok = false ∧
     (setup_nginx_smart_proxy (fun _ => true) "/h" "d" "nginx" "/w" "/c"
        "/k" id 54116 "OLD CONF" (fun _ => false)
        true).restart_attempted = false) :=
  ⟨rfl, C1_validation_failure_rolls_back (fun _ => true) "/h" "d" "nginx"
    "/w" "/c" "/k" id 54116 "OLD CONF" (fun _ => false) true rfl⟩

/-- C7: when the written document passes validation but the service restart
fails, the run reports failure, a restart was attempted, and the validated
file is left in place (the live document stays the freshly written one; no
rollback to the backup happens). -/
theorem C7_restart_failure_keeps_file
    (ef : String → Bool)
    (base domain user web cert key : String) (ab : String → String)
    (port : Nat) (initial_live : String) (validate : String → Bool)
    (h : validate (setup_written_conf ef base domain user web cert key ab
          port) = true) :
    (setup_nginx_smart_proxy ef base domain user web cert key ab port
      initial_live validate false).ok = false ∧
    (setup_nginx_smart_proxy ef base domain user web cert key ab port
      initial_live validate false).live =
      setup_written_conf ef base domain user web cert key ab port ∧
    (setup_nginx_smart_proxy ef base domain user web cert key ab port
      initial_live validate false).restart_attempted = true := by
  simp [setup_nginx_smart_proxy, h]

/-- Closed instance of `C7_restart_failure_keeps_file` with an
always-accepting validator and a failing restart. -/
theorem C7_restart_failure_keeps_file_witness :
    (fun _ : String => true) (setup_written_conf (fun _ => true) "/h" "d"
      "nginx" "/w" "/c" "/k" id 54116) = true ∧
    ((setup_nginx_smart_proxy (fun _ => true) "/h" "d" "nginx" "/w" "/c"
        "/k" id 54116 "OLD CONF" (fun _ => true) false).ok = false ∧
     (setup_nginx_smart_proxy (fun _ => true) "/h" "d" "nginx" "/w" "/c"
        "/k" id 54116 "OLD CONF" (fun _ => true) false).live =
        setup_written_conf (fun _ => true) "/h" "d" "nginx" "/w" "/c" "/k"
          id 54116 ∧
     (setup_nginx_smart_proxy (fun _ => true) "/h" "d" "nginx" "/w" "/c"
        "/k" id 54116 "OLD CONF" (fun _ => true)
        false).restart_attempted = true) :=
  ⟨rfl, C7_restart_failure_keeps_file (fun _ => true) "/h" "d" "nginx"
    "/w" "/c" "/k" id 54116 "OLD CONF" (fun _ => true) rfl⟩

/-! Theorems about the FrontProxyRenderer. -/

/-- C2 counterexample: the TLS listen port of the rendered virtual host is
the hard-coded 54116, not the profile's TCP port.  For a profile whose
port is 17205 the rendered document has no `listen 17205 ssl` directive,
while it does contain `listen 54116 ssl http2;`. -/
theorem C2_counterexample :
    (((nginx_conf_lines "nginx" "/c" "/k" "/w" id 17205).map
        NLine.text).contains "        listen 17205 ssl http2;" = false) ∧
    (((nginx_conf_lines "nginx" "/c" "/k" "/w" id 17205).map
        NLine.text).contains "        listen 54116 ssl http2;" = true) := by
  decide

/-- C2 amended: for every profile the rendered document contains a virtual
host listening on plaintext port 80 and on the fixed port 54116 with TLS
(the profile's TCP port only when that port is 54116, the default), serves
static content from the given web root with the fallback chain
`try_files $uri $uri/ /index.html`, declares the directory index documents,
and its `add_header` directives are exactly the two fixed security headers
X-Frame-Options and X-Content-Type-Options. -/
theorem C2_rendered_document
    (user cert key web : String) (ab : String → String) (port : Nat) :
    "        listen 80;" ∈
      (nginx_conf_lines user cert key web ab port).map NLine.text ∧
    "        listen 54116 ssl http2;" ∈
      (nginx_conf_lines user cert key web ab port).map NLine.text ∧
    ("        root " ++ web ++ ";") ∈
      (nginx_conf_lines user cert key web ab port).map NLine.text ∧
    "        index index.html index.htm;" ∈
      (nginx_conf_lines user cert key web ab port).map NLine.text ∧
    "            try_files $uri $uri/ /index.html;" ∈
      (nginx_conf_lines user cert key web ab port).map NLine.text ∧
    (nginx_conf_lines user cert key web ab port).filter isAddHeaderLine =
      [.lit "        add_header X-Frame-Options DENY always;",
       .lit "        add_header X-Content-Type-Options nosniff always;"] := by
  refine ⟨?_, ?_, ?_, ?_, ?_, rfl⟩ <;>
    · simp only [nginx_conf_lines, List.map_cons, NLine.text]
      repeat first
        | exact List.Mem.head _
        | apply List.Mem.tail

/-! Theorems about the ClientDescriptorBuilder. -/

/-- C9 counterexample: the `sni` value in the query-parameter section is
embedded verbatim, not percent-encoded.  With the server address `"a b"`
the produced link contains the raw `sni=a b`, and does not contain the
percent-encoded `sni=a%20b` that encoding of every embedded query value
would require. -/
theorem C9_counterexample :
    config_link "p" "a b" 443 none false =
      "hysteria2://p@a b:443?insecure=1&sni=a b" ∧
    urlquote "a b" = "a%20b" ∧
    ("sni=a b".data <:+: (config_link "p" "a b" 443 none false).data) ∧
    ¬ ("sni=a%20b".data <:+: (config_link "p" "a b" 443 none false).data) := by
  refine ⟨rfl, rfl, by decide, by decide⟩

/-- C9 amended: the client descriptor is a strict function of the password,
address, port, obfuscation password and insecure flag, with the closed form
`hysteria2://urlquote(password)@address:port?insecure=0|1&sni=address`
followed by `&obfs=salamander&obfs-password=urlquote(...)` exactly when the
obfuscation password is truthy; percent-encoding is applied to the password
and to the obfs-password value, while the `sni` value (and the authority
address) is embedded verbatim; `insecure` is `0` when a real certificate
was used and `1` when the deployment fell back to a self-signed one. -/
theorem C9_link_closed_form (pw addr : String) (port : Nat)
    (op : Option String) (real_cert : Bool) :
    config_link pw addr port op real_cert =
      "hysteria2://" ++ urlquote pw ++ "@" ++ addr ++ ":" ++ toString port
        ++ "?" ++ "insecure=" ++ (if real_cert then "0" else "1") ++ "&" ++
        "sni=" ++ addr ++
        (if pyTruthy op then
          "&" ++ "obfs=salamander" ++ "&" ++ "obfs-password=" ++
            urlquote (op.getD "")
         else "") := by
  cases h : pyTruthy op <;>
    · apply String.ext
      simp [config_link, pyJoin, h, String.data_append, List.append_assoc]

/-! Theorems about the certificate provider. -/

/-- Helper: Python's `s.strip()` is empty exactly when every character of
`s` is whitespace. -/
theorem pyStrip_eq_empty_iff (s : String) :
    pyStrip s = "" ↔ s.data.all pyIsSpace = true := by
  unfold pyStrip
  constructor
  · intro h
    have hd : ((s.data.dropWhile pyIsSpace).reverse.dropWhile
        pyIsSpace).reverse = [] := by
      have := congrArg String.data h
      simpa using this
    rw [List.reverse_eq_nil_iff, List.dropWhile_eq_nil_iff] at hd
    have hdrop : s.data.dropWhile pyIsSpace = [] := by
      cases hcase : s.data.dropWhile pyIsSpace with
      | nil => rfl
      | cons x xs =>
        exfalso
        have hx : pyIsSpace x = false := by
          have := List.head?_dropWhile_not pyIsSpace s.data
          rw [hcase] at this
          simpa using this
        have hmem : x ∈ (s.data.dropWhile pyIsSpace).reverse := by
          rw [hcase]; simp
        have := hd x hmem
        rw [hx] at this
        exact Bool.false_ne_true this
    rw [List.all_eq_true]
    intro x hx
    have hx2 : x ∈ s.data.takeWhile pyIsSpace ++
        s.data.dropWhile pyIsSpace := by
      rw [List.takeWhile_append_dropWhile]; exact hx
    rcases List.mem_append.mp hx2 with h1 | h1
    · exact List.mem_takeWhile_imp h1
    · rw [hdrop] at h1; cases h1
  · intro h
    have hdrop : s.data.dropWhile pyIsSpace = [] :=
      List.dropWhile_eq_nil_iff.mpr (fun x hx =>
        (List.all_eq_true.mp h) x hx)
    rw [hdrop]
    rfl

/-- C10: the self-signed certificate generator uses common name
`localhost` exactly when the supplied domain is empty or whitespace-only,
and the supplied domain itself otherwise, for every base directory. -/
theorem C10_cert_common_name (base domain : String) :
    (domain.data.all pyIsSpace = true →
      (generate_self_signed_cert base domain).subj = "/CN=localhost") ∧
    (domain.data.all pyIsSpace = false →
      (generate_self_signed_cert base domain).subj = "/CN=" ++ domain) := by
  constructor
  · intro h
    have hs : pyStrip domain = "" := (pyStrip_eq_empty_iff domain).mpr h
    simp [generate_self_signed_cert, hs]
  · intro h
    have hne : domain ≠ "" := by
      intro he
      rw [he] at h
      simp [pyIsSpace] at h
    have hs : pyStrip domain ≠ "" := fun he =>
      by rw [(pyStrip_eq_empty_iff domain).mp he] at h; cases h
    simp [generate_self_signed_cert, hne, hs]

/-- Closed instances of `C10_cert_common_name`: a whitespace-only domain
falls back to `localhost`, a regular domain is used as given. -/
theorem C10_cert_common_name_witness :
    ((" \t ".data.all pyIsSpace = true) ∧
      (generate_self_signed_cert "/b" " \t ").subj = "/CN=localhost") ∧
    (("example.com".data.all pyIsSpace = false) ∧
      (generate_self_signed_cert "/b" "example.com").subj =
        "/CN=example.com") :=
  ⟨⟨by decide, (C10_cert_common_name "/b" " \t ").1 (by decide)⟩,
   ⟨by decide, (C10_cert_common_name "/b" "example.com").2 (by decide)⟩⟩

end Hysteria2
